import Mathlib

/-!
Verification of the depivot validation / data-quality subsystem.

Shallow embedding of the relevant parts of the source:
  * `clean_numeric_value`            (src/depivot/core.py, the numeric normalizer),
  * `create_validation_report`       (src/depivot/core.py, the reconciliation engine),
  * `ValidationEngine._run_rules` / `check_for_errors` (src/depivot/data_quality.py),
  * `CheckNullValues.validate`, `CheckDuplicates.validate` (src/depivot/quality_rules.py),
  * `TemplateValidator._check_header_row` (src/depivot/template_validators.py).

Modelling conventions:
  * Python floats are embedded as exact rationals; the IEEE value `nan`
    (pandas' missing sentinel) is the extra constructor `PyFloat.nan`.
    Arithmetic on `PyFloat` propagates `nan` the way IEEE arithmetic does
    (`nan` is absorbing for `+`, `-`, `abs`; every `<` comparison against
    `nan` is false).
  * A scalar cell of a frame is `Cell`: a number, a string, or the missing
    value (None / NaN, which `pd.isna` both report as missing).
  * Python code that raises is embedded as `Except String`; code that
    catches all exceptions is a total Lean function.
  * pandas `Series.sum` skips missing values (skipna=True, empty sum is 0);
    Python's builtin `sum` over floats starts at 0 and propagates `nan`.
    Both are embedded separately (`pandas_sum` vs `py_sum`).
-/

/-- A scalar value of a spreadsheet cell: a number (Python int/float embed as
an exact rational), a string, or the missing value (None or IEEE NaN, which
`pd.isna` both report as missing). -/
inductive Cell where
  | num (q : ℚ)
  | str (s : String)
  | null
deriving DecidableEq

/-- A Python float: an exact rational or the IEEE `nan` missing sentinel. -/
inductive PyFloat where
  | val (q : ℚ)
  | nan
deriving DecidableEq

/-- IEEE addition restricted to the embedding: `nan` is absorbing. -/
def py_add : PyFloat → PyFloat → PyFloat
  | PyFloat.val a, PyFloat.val b => PyFloat.val (a + b)
  | _, _ => PyFloat.nan

/-- IEEE subtraction restricted to the embedding: `nan` is absorbing. -/
def py_sub : PyFloat → PyFloat → PyFloat
  | PyFloat.val a, PyFloat.val b => PyFloat.val (a - b)
  | _, _ => PyFloat.nan

/-- `abs` on a Python float; `abs(nan)` is `nan`. -/
def py_abs : PyFloat → PyFloat
  | PyFloat.val a => PyFloat.val |a|
  | PyFloat.nan => PyFloat.nan

/-- The comparison `x < t` of a Python float against an exact constant
(IEEE: every comparison with `nan` is false). -/
def py_lt : PyFloat → ℚ → Bool
  | PyFloat.val a, t => decide (a < t)
  | PyFloat.nan, _ => false

/-- Python's builtin `sum` over floats: left fold from 0, `nan` propagates. -/
def py_sum (l : List PyFloat) : PyFloat :=
  l.foldl py_add (PyFloat.val 0)

/-- pandas `Series.sum` over a float column: missing values are skipped
(skipna=True); the sum of an empty or all-missing column is 0.0. -/
def pandas_sum (l : List PyFloat) : PyFloat :=
  PyFloat.val (l.filterMap (fun v => match v with
    | PyFloat.val q => some q
    | PyFloat.nan => none)).sum

/-- pandas `Series.sum` over a raw column of cells, for columns whose cells
are numbers or missing (the shape `df_source[col].sum()` is applied to in
`create_validation_report`): missing cells are skipped, numbers are summed.
Columns holding strings (where pandas would concatenate or raise) are outside
the scope of the claims and are treated as skipped cells here. -/
def pandas_col_sum (l : List Cell) : Cell :=
  Cell.num (l.filterMap (fun c => match c with
    | Cell.num q => some q
    | _ => none)).sum

/-- Python's `str.join`: `py_join sep [a, b, c] = a ++ sep ++ b ++ sep ++ c`. -/
def py_join (sep : String) : List String → String
  | [] => ""
  | [x] => x
  | x :: y :: xs => x ++ sep ++ py_join sep (y :: xs)

/-- `l` occurs contiguously inside `m` (the substring relation on the
character lists of two strings). -/
def substringOf (l m : List Char) : Prop :=
  ∃ s t, s ++ l ++ t = m

theorem substringOf_refl (l : List Char) : substringOf l l :=
  ⟨[], [], by simp⟩

theorem substringOf_trans {a b c : List Char} (h₁ : substringOf a b)
    (h₂ : substringOf b c) : substringOf a c := by
  obtain ⟨s₁, t₁, rfl⟩ := h₁
  obtain ⟨s₂, t₂, rfl⟩ := h₂
  exact ⟨s₂ ++ s₁, t₁ ++ t₂, by simp⟩

theorem substringOf_append_left {a b : List Char} (c : List Char)
    (h : substringOf a b) : substringOf a (c ++ b) := by
  obtain ⟨s, t, rfl⟩ := h
  exact ⟨c ++ s, t, by simp⟩

theorem substringOf_append_right {a b : List Char} (c : List Char)
    (h : substringOf a b) : substringOf a (b ++ c) := by
  obtain ⟨s, t, rfl⟩ := h
  exact ⟨s, t ++ c, by simp⟩

/-- Every member of a joined list occurs as a substring of the join. -/
theorem substringOf_py_join (sep : String) (l : List String) (x : String)
    (hx : x ∈ l) : substringOf x.data (py_join sep l).data := by
  induction l with
  | nil => cases hx
  | cons y ys ih =>
    cases ys with
    | nil =>
      rcases List.mem_singleton.mp hx with rfl
      exact substringOf_refl _
    | cons z zs =>
      rcases List.mem_cons.mp hx with rfl | hmem
      · refine ⟨[], (sep ++ py_join sep (z :: zs)).data, ?_⟩
        simp [py_join, String.data_append]
      · have h := ih hmem
        have : substringOf x.data ((y ++ sep).data ++ (py_join sep (z :: zs)).data) :=
          substringOf_append_left _ h
        simpa [py_join, String.data_append, List.append_assoc] using this

/-!  ## The numeric normalizer `clean_numeric_value` (src/depivot/core.py:80-124) -/

/-- The character class the regex `[^\d.,()\-]` keeps: digits, decimal point,
comma, parentheses and the minus sign (`\d` is ASCII digits for the inputs in
scope). -/
def keep_char (c : Char) : Bool :=
  c.isDigit || c == '.' || c == ',' || c == '(' || c == ')' || c == '-'

/-- The natural number a digit string denotes (most significant first);
an empty list denotes 0, matching the use below where the integer or
fractional part of a float literal may be empty. -/
def digits_to_nat (cs : List Char) : ℕ :=
  cs.foldl (fun n c => 10 * n + (c.toNat - 48)) 0

/-- Splits an optional leading minus sign off a character list. -/
def strip_minus : List Char → Bool × List Char
  | '-' :: t => (true, t)
  | t => (false, t)

/-- Python's `float(s)` restricted to the strings reachable in
`clean_numeric_value` (after the regex strip no letters, `+`, `_` or
whitespace remain): an optional leading minus, then digits with at most one
decimal point and at least one digit. Anything else raises ValueError,
embedded as `none`. -/
def py_float_of_string (s : String) : Option ℚ :=
  match s.data with
  | [] => none
  | cs =>
    let neg := (strip_minus cs).1
    let rest := (strip_minus cs).2
    if rest.all (fun c => c.isDigit || c == '.') && decide (rest.count '.' ≤ 1)
        && rest.any (fun c => c.isDigit) then
      let ip := rest.takeWhile (fun c => c != '.')
      let fp := (rest.dropWhile (fun c => c != '.')).drop 1
      let mag : ℚ := (digits_to_nat ip : ℚ) + (digits_to_nat fp : ℚ) / ((10 : ℚ) ^ fp.length)
      some (if neg then -mag else mag)
    else
      none

/-- `clean_numeric_value` (core.py:80-124). Missing input stays missing;
numeric input is returned as a float with no parsing; text is stripped to
`[0-9.,()-]`, a balanced parenthesis pair marks a negative, commas are
removed, and the rest is parsed as a float — parse failure is caught and
yields NaN. -/
def clean_numeric_value (value : Cell) : PyFloat :=
  match value with
  | Cell.null => PyFloat.nan
  | Cell.num q => PyFloat.val q
  | Cell.str s =>
    let value_str := String.mk (s.data.filter keep_char)
    let is_negative := value_str.data.contains '(' && value_str.data.contains ')'
    let value_str₂ :=
      if is_negative then
        String.mk (value_str.data.filter (fun c => c != '(' && c != ')'))
      else value_str
    let value_str₃ := String.mk (value_str₂.data.filter (fun c => c != ','))
    match py_float_of_string value_str₃ with
    | some result => if is_negative then PyFloat.val (-result) else PyFloat.val result
    | none => PyFloat.nan

/-!  ## The reconciliation engine `create_validation_report` (src/depivot/core.py:282-368) -/

/-- A source (pre-transform) frame: the ordered column names and the rows,
each row an association list from column name to cell (`row[col]`). -/
structure SourceFrame where
  columns : List String
  rows : List (List (String × Cell))
deriving DecidableEq

/-- `row[col]` on a source row. The code only reads columns it has checked
for membership in `df.columns`; an absent key defaults to missing here. -/
def row_get (r : List (String × Cell)) (c : String) : Cell :=
  (List.lookup c r).getD Cell.null

/-- One row of a depivoted (post-transform) frame: the identifier columns and
the (already numeric-cleaned) value column entry. -/
structure ProcRow where
  ids : List (String × Cell)
  value : PyFloat
deriving DecidableEq

/-- The per-sheet input to `create_validation_report`: the sheet name, the
original frame (`sheets_data[name]`), the depivoted frame
(`depivoted_sheets[name]`) and the value columns used
(`value_vars_by_sheet[name]`). -/
structure SheetData where
  name : String
  source : SourceFrame
  processed : List ProcRow
  value_vars : List String
deriving DecidableEq

/-- Elementwise pandas `==` between two cells: missing never equals anything
(NaN semantics), and values of different kinds compare unequal. -/
def cell_eq : Cell → Cell → Bool
  | Cell.num a, Cell.num b => a == b
  | Cell.str a, Cell.str b => a == b
  | _, _ => false

/-- One line of the validation report (core.py:328-366). Per-group rows carry
no `Category` key (`none` here); sheet and grand totals carry
`some "SHEET_TOTAL"` / `some "GRAND_TOTAL"`. -/
structure ValidationRow where
  source_file : String
  sheet : String
  id_values : List (String × Cell)
  category : Option String
  source_total : PyFloat
  processed_total : PyFloat
  difference : PyFloat
  Match : String
deriving DecidableEq

/-- The per-source-row reconciliation rows of one sheet (core.py:313-336):
emitted only when identifier columns are configured; each source row gets its
identifier tuple, the Python sum of its cleaned value cells, and the pandas
sum of the value column over the processed rows whose identifier columns all
compare equal. -/
def validation_group_rows (input_file : String) (id_vars : List String)
    (sd : SheetData) : List ValidationRow :=
  if id_vars.isEmpty then [] else
  sd.source.rows.map (fun r =>
    let id_values := (id_vars.filter (fun c => sd.source.columns.contains c)).map
      (fun c => (c, row_get r c))
    let source_total := py_sum ((sd.value_vars.filter
      (fun c => sd.source.columns.contains c)).map
      (fun c => clean_numeric_value (row_get r c)))
    let matched := sd.processed.filter (fun pr =>
      id_values.all (fun cv => cell_eq (row_get pr.ids cv.1) cv.2))
    let processed_total := pandas_sum (matched.map (fun pr => pr.value))
    { source_file := input_file
      sheet := sd.name
      id_values := id_values
      category := none
      source_total := source_total
      processed_total := processed_total
      difference := py_sub processed_total source_total
      Match := if py_lt (py_abs (py_sub processed_total source_total)) (1/100)
               then "OK" else "MISMATCH" })

/-- The `SHEET_TOTAL` row of one sheet (core.py:338-352): the Python sum of
the cleaned pandas column sums of the value columns, against the pandas sum
of the whole processed value column. -/
def validation_sheet_total_row (input_file : String) (sd : SheetData) : ValidationRow :=
  let sheet_source_total := py_sum ((sd.value_vars.filter
    (fun c => sd.source.columns.contains c)).map
    (fun c => clean_numeric_value (pandas_col_sum (sd.source.rows.map
      (fun r => row_get r c)))))
  let sheet_processed_total := pandas_sum (sd.processed.map (fun pr => pr.value))
  { source_file := input_file
    sheet := sd.name
    id_values := []
    category := some "SHEET_TOTAL"
    source_total := sheet_source_total
    processed_total := sheet_processed_total
    difference := py_sub sheet_processed_total sheet_source_total
    Match := if py_lt (py_abs (py_sub sheet_processed_total sheet_source_total)) (1/100)
             then "OK" else "MISMATCH" }

/-- The `GRAND_TOTAL` row (core.py:354-366): both totals are Python sums of
the respective totals of the `SHEET_TOTAL` rows already accumulated in
`validation_rows` — not recomputed from the raw frames. -/
def validation_grand_total_row (input_file : String)
    (validation_rows : List ValidationRow) : ValidationRow :=
  let grand_source := py_sum ((validation_rows.filter
    (fun r => r.category == some "SHEET_TOTAL")).map (fun r => r.source_total))
  let grand_processed := py_sum ((validation_rows.filter
    (fun r => r.category == some "SHEET_TOTAL")).map (fun r => r.processed_total))
  { source_file := input_file
    sheet := "ALL_SHEETS"
    id_values := []
    category := some "GRAND_TOTAL"
    source_total := grand_source
    processed_total := grand_processed
    difference := py_sub grand_processed grand_source
    Match := if py_lt (py_abs (py_sub grand_processed grand_source)) (1/100)
             then "OK" else "MISMATCH" }

/-- `create_validation_report` (core.py:282-368): for each sheet, the
per-group rows then the sheet-total row, and after all sheets one grand-total
row computed from the accumulated rows. -/
def create_validation_report (input_file : String) (id_vars : List String)
    (sheets : List SheetData) : List ValidationRow :=
  let validation_rows := sheets.flatMap (fun sd =>
    validation_group_rows input_file id_vars sd ++
    [validation_sheet_total_row input_file sd])
  validation_rows ++ [validation_grand_total_row input_file validation_rows]

/-!  ## The validation engine (src/depivot/data_quality.py) -/

/-- `ValidationResult` (data_quality.py:19-27). The `details` mapping is kept
at the granularity the engine claims need (string keys and values); the
wall-clock `timestamp` field carries no information the engine reads and is
omitted from the embedding. -/
structure ValidationResult where
  rule_name : String
  severity : String
  passed : Bool
  message : String
  details : List (String × String)
deriving DecidableEq

/-- A loaded validation rule as the engine sees it: its class name (used for
the synthesized result when it raises) and its `validate` method, which
either returns a result or raises (`Except.error` carries `str(e)`). `Ctx`
stands for `ValidationContext`; the engine never inspects it. -/
structure ValidationRule (Ctx : Type) where
  className : String
  validate : Ctx → Except String ValidationResult

/-- `ValidationEngine._run_rules` (data_quality.py:220-262): evaluate each
rule in order; a raising rule yields a synthesized `error`-severity failing
result carrying the exception text; after any failing `error` result the loop
breaks when `stop_on_error` is set. -/
def run_rules {Ctx : Type} (stop_on_error : Bool)
    (rules : List (ValidationRule Ctx)) (ctx : Ctx) : List ValidationResult :=
  match rules with
  | [] => []
  | rule :: rest =>
    match rule.validate ctx with
    | Except.ok result =>
      if result.severity == "error" && !result.passed && stop_on_error then
        [result]
      else
        result :: run_rules stop_on_error rest ctx
    | Except.error e =>
      let synthesized : ValidationResult :=
        { rule_name := rule.className
          severity := "error"
          passed := false
          message := "Rule execution failed: " ++ e
          details := [("exception", e)] }
      if stop_on_error then
        [synthesized]
      else
        synthesized :: run_rules stop_on_error rest ctx

/-- The result one rule contributes to the list when the loop reaches it:
its returned result, or the synthesized failure if it raises. Used to state
the engine theorems; `run_rules` itself does not use it. -/
def outcome_of {Ctx : Type} (rule : ValidationRule Ctx) (ctx : Ctx) : ValidationResult :=
  match rule.validate ctx with
  | Except.ok result => result
  | Except.error e =>
      { rule_name := rule.className
        severity := "error"
        passed := false
        message := "Rule execution failed: " ++ e
        details := [("exception", e)] }

/-- A failing result of `error` severity — the condition of the
`stop_on_error` break and of `check_for_errors`. -/
def failing_error (r : ValidationResult) : Bool :=
  r.severity == "error" && !r.passed

/-- `ValidationEngine` state after construction (data_quality.py:113-143):
the enable flag, `validation_settings.stop_on_error`, and the two loaded rule
lists. -/
structure ValidationEngine (Ctx : Type) where
  enabled : Bool
  stop_on_error : Bool
  pre_processing_rules : List (ValidationRule Ctx)
  post_processing_rules : List (ValidationRule Ctx)

/-- `run_pre_processing` (data_quality.py:184-200): empty result list when
the engine is disabled, else the rule loop over the pre-processing rules. -/
def run_pre_processing {Ctx : Type} (engine : ValidationEngine Ctx) (ctx : Ctx) :
    List ValidationResult :=
  if !engine.enabled then [] else
  run_rules engine.stop_on_error engine.pre_processing_rules ctx

/-- `run_post_processing` (data_quality.py:202-218). -/
def run_post_processing {Ctx : Type} (engine : ValidationEngine Ctx) (ctx : Ctx) :
    List ValidationResult :=
  if !engine.enabled then [] else
  run_rules engine.stop_on_error engine.post_processing_rules ctx

/-- `ValidationEngine.check_for_errors` (data_quality.py:323-341): collect
every failing `error`-severity result; if any exist raise a
`DataQualityError` whose message concatenates every such result's rule name
and message, else return normally. -/
def check_for_errors (results : List ValidationResult) : Except String Unit :=
  let errors := results.filter failing_error
  if errors.isEmpty then Except.ok () else
  let error_msgs := errors.map (fun r => r.rule_name ++ ": " ++ r.message)
  Except.error ("Data quality validation failed with " ++ toString errors.length
    ++ " error(s):\n" ++ py_join "\n" (error_msgs.map (fun msg => "  - " ++ msg)))

/-!  ## Quality rules (src/depivot/quality_rules.py) -/

/-- One entry of the `issues` list `CheckNullValues.validate` accumulates
(quality_rules.py:51-56). -/
structure NullIssue where
  column : String
  null_count : ℕ
  null_ratio : ℚ
  threshold : ℚ
deriving DecidableEq

/-- The number of missing entries of column `c`: `df[col].isna().sum()`. -/
def null_count_of (df : SourceFrame) (c : String) : ℕ :=
  (df.rows.map (fun r => row_get r c)).countP (fun cell => cell == Cell.null)

/-- The `columns` parameter of `CheckNullValues`: the literal `"all"` or an
explicit column list. -/
inductive ColumnsParam where
  | all
  | cols (l : List String)

/-- The loop body of `CheckNullValues.validate` (quality_rules.py:39-56):
resolve `"all"` to every frame column, skip configured columns the frame
lacks, compute `null_count / len(df)` (0 for an empty frame), and record an
issue whenever the ratio strictly exceeds the threshold. -/
def check_null_values_issues (df : SourceFrame) (columns : ColumnsParam)
    (threshold : ℚ) : List NullIssue :=
  let cols := match columns with
    | ColumnsParam.all => df.columns
    | ColumnsParam.cols l => l
  (cols.filter (fun c => df.columns.contains c)).filterMap (fun c =>
    let null_count := null_count_of df c
    let null_ratio : ℚ :=
      if df.rows.length > 0 then (null_count : ℚ) / (df.rows.length : ℚ) else 0
    if null_ratio > threshold then
      some { column := c, null_count := null_count, null_ratio := null_ratio,
             threshold := threshold }
    else none)

/-- The verdict of `CheckNullValues.validate`: the rule passes exactly when
no issue was recorded (quality_rules.py:58-83). -/
def check_null_values_passed (df : SourceFrame) (columns : ColumnsParam)
    (threshold : ℚ) : Bool :=
  (check_null_values_issues df columns threshold).isEmpty

/-- The key of one frame row that `CheckDuplicates.validate` compares
(quality_rules.py:103-108): the projection onto the configured key columns
when `key_columns` is truthy (a non-empty list), else the whole row — here
the projection onto every frame column. pandas `duplicated` treats missing
values as equal to each other, matching `Cell` equality. -/
def duplicate_keys (df : SourceFrame) (key_columns : Option (List String)) :
    List (List Cell) :=
  let ks := key_columns.getD []
  let cols := if ks.isEmpty then df.columns else ks
  df.rows.map (fun r => cols.map (fun c => row_get r c))

/-- `duplicate_count` as `CheckDuplicates.validate` reports it in `details`
(quality_rules.py:105-110): the number of rows marked by
`df.duplicated(..., keep=False)`, i.e. every member of every key group of
size at least two. -/
def check_duplicates_count (df : SourceFrame) (key_columns : Option (List String)) : ℕ :=
  let keys := duplicate_keys df key_columns
  (keys.filter (fun k => 2 ≤ keys.count k)).length

/-!  ## Template header check (src/depivot/template_validators.py:243-299) -/

/-- The configuration of one Phase 2 `header_row` check, after the defaults
of `_check_header_row` are applied (template_validators.py:256-259). The
`message` template's `{sheet}` placeholder is substituted with the sheet
name. -/
structure HeaderCheck where
  row_number : ℕ
  expected_columns : List String
  exact_order : Bool
  allow_extra_columns : Bool
  severity : String
  message : String

/-- Python's `str.strip()`: leading and trailing whitespace removed. -/
def py_strip (s : String) : String :=
  String.mk (((s.data.dropWhile Char.isWhitespace).reverse.dropWhile
    Char.isWhitespace).reverse)

/-- The observed header (template_validators.py:262-265): the configured
row's cells in order, `none` for an empty cell; each non-empty cell's value
is stringified and stripped. -/
def header_actual (cells : List (Option String)) : List String :=
  cells.filterMap (fun c => c.map (fun v => py_strip v))

/-- The expected columns absent from the observed header
(template_validators.py:268). -/
def header_missing (cells : List (Option String)) (check : HeaderCheck) : List String :=
  check.expected_columns.filter (fun col => !(header_actual cells).contains col)

/-- `TemplateValidator._check_header_row` (template_validators.py:243-299).
Missing expected columns always raise (whatever the severity); extra columns
raise only at `error` severity when disallowed (a warning is printed and the
check continues otherwise); `exact_order` mismatches always raise. -/
def check_header_row (cells : List (Option String)) (sheet_name : String)
    (check : HeaderCheck) : Except String Unit :=
  let expected := check.expected_columns
  let actual := header_actual cells
  let missing := header_missing cells check
  if !missing.isEmpty then
    Except.error (String.replace check.message "{sheet}" sheet_name
      ++ "\n  Missing columns: " ++ py_join ", " missing
      ++ "\n  Expected: " ++ py_join ", " expected
      ++ "\n  Found at row " ++ toString check.row_number ++ ": " ++ py_join ", " actual)
  else
    let extra_step : Except String Unit :=
      if !check.allow_extra_columns then
        let extra := actual.filter (fun col => !expected.contains col)
        if !extra.isEmpty && check.severity == "error" then
          Except.error ("Extra columns in sheet '" ++ sheet_name ++ "': "
            ++ py_join ", " extra)
        else Except.ok ()
      else Except.ok ()
    match extra_step with
    | Except.error m => Except.error m
    | Except.ok _ =>
      if check.exact_order then
        let expected_in_actual := actual.filter (fun col => expected.contains col)
        if expected_in_actual ≠ expected then
          Except.error ("Column order mismatch in sheet '" ++ sheet_name ++ "'"
            ++ "\n  Expected order: " ++ py_join ", " expected
            ++ "\n  Found order: " ++ py_join ", " expected_in_actual)
        else Except.ok ()
      else Except.ok ()

/-- Helper: what the minus strip keeps was already in the list. -/
theorem mem_strip_minus_snd {cs : List Char} {c : Char}
    (h : c ∈ (strip_minus cs).2) : c ∈ cs := by
  unfold strip_minus at h
  split at h
  · exact List.mem_cons_of_mem _ h
  · exact h

/-- Helper: parsing a digit-free string always fails (`float()` raises on a
string with no digit). -/
theorem py_float_of_string_no_digits (s : String)
    (h : ∀ c ∈ s.data, c.isDigit = false) : py_float_of_string s = none := by
  unfold py_float_of_string
  split
  · rfl
  · have hany : (strip_minus s.data).2.any (fun c => c.isDigit) = false := by
      rw [List.any_eq_false]
      intro c hc
      simp [h c (mem_strip_minus_snd hc)]
    simp only [hany, Bool.and_false, Bool.false_eq_true, if_false]

/-- Helper: `clean_numeric_value` on a digit-free string yields NaN. -/
theorem clean_numeric_value_no_digits (s : String)
    (h : ∀ c ∈ s.data, c.isDigit = false) :
    clean_numeric_value (Cell.str s) = PyFloat.nan := by
  have key : ∀ (l : List Char), (∀ c ∈ l, c ∈ s.data) →
      py_float_of_string (String.mk l) = none := fun l hl =>
    py_float_of_string_no_digits _ (fun c hc => h c (hl c hc))
  simp only [clean_numeric_value]
  cases hB : (String.mk (s.data.filter keep_char)).data.contains '(' &&
      (String.mk (s.data.filter keep_char)).data.contains ')' with
  | false =>
    simp only [Bool.false_eq_true, if_false]
    have h1 : py_float_of_string (String.mk (List.filter (fun c => c != ',')
        (String.mk (List.filter keep_char s.data)).data)) = none := by
      apply key
      intro c hc
      exact (List.mem_filter.mp ((List.mem_filter.mp hc).1)).1
    rw [h1]
  | true =>
    simp only [if_true]
    have h1 : py_float_of_string (String.mk (List.filter (fun c => c != ',')
        (String.mk (List.filter (fun c => c != '(' && c != ')')
          (List.filter keep_char s.data))).data)) = none := by
      apply key
      intro c hc
      have h2 := (List.mem_filter.mp hc).1
      have h3 := (List.mem_filter.mp h2).1
      exact (List.mem_filter.mp h3).1
    rw [h1]

/-- C6: the numeric normalizer round-trips parenthesized and
currency-formatted text — `clean_numeric_value "(1,234.56)" = -1234.56` and
`clean_numeric_value "$1,234.56" = 1234.56` — and on any input that is
already numeric it returns that value as a float with no parsing, so it is
idempotent on clean floats. -/
theorem clean_numeric_value_round_trip :
    clean_numeric_value (Cell.str "(1,234.56)") = PyFloat.val (-1234.56) ∧
    clean_numeric_value (Cell.str "$1,234.56") = PyFloat.val 1234.56 ∧
    ∀ q : ℚ, clean_numeric_value (Cell.num q) = PyFloat.val q := by
  refine ⟨?_, ?_, fun q => rfl⟩
  · simp +decide [clean_numeric_value, py_float_of_string, strip_minus, digits_to_nat,
      keep_char]
    norm_num
  · simp +decide [clean_numeric_value, py_float_of_string, strip_minus, digits_to_nat,
      keep_char]
    norm_num

/-- C7: `clean_numeric_value` is total — for every input it returns a float
(possibly the NaN missing sentinel) and never raises: the only fallible step,
the float parse, is wrapped and failure becomes NaN. In particular a string
with parentheses (or any other text) but no digits yields NaN, not an
error. -/
theorem clean_numeric_value_total :
    (∀ v : Cell, clean_numeric_value v = PyFloat.nan ∨
      ∃ q : ℚ, clean_numeric_value v = PyFloat.val q) ∧
    (∀ s : String, (∀ c ∈ s.data, c.isDigit = false) →
      clean_numeric_value (Cell.str s) = PyFloat.nan) := by
  constructor
  · intro v
    cases hv : clean_numeric_value v with
    | val q => exact Or.inr ⟨q, rfl⟩
    | nan => exact Or.inl rfl
  · exact clean_numeric_value_no_digits

/-- C7 witness: the digit-free string of two stray parentheses evaluates to
the NaN missing sentinel. -/
theorem clean_numeric_value_total_witness :
    clean_numeric_value (Cell.str "()") = PyFloat.nan :=
  clean_numeric_value_total.2 "()" (by decide)

/-- Helper for C10: the length of the keep=False duplicate selection over any
key list is never exactly one. -/
theorem dup_filter_length_never_one (keys : List (List Cell)) :
    (keys.filter (fun k => 2 ≤ keys.count k)).length = 0 ∨
    2 ≤ (keys.filter (fun k => 2 ≤ keys.count k)).length := by
  cases hf : keys.filter (fun k => 2 ≤ keys.count k) with
  | nil => exact Or.inl rfl
  | cons k rest =>
    refine Or.inr ?_
    have hk : k ∈ keys.filter (fun k => 2 ≤ keys.count k) := by
      rw [hf]; exact List.mem_cons_self k rest
    have hmem := List.mem_filter.mp hk
    have hcount : 2 ≤ keys.count k := by simpa using hmem.2
    have h2 : 2 ≤ (keys.filter (fun k => 2 ≤ keys.count k)).length := by
      calc 2 ≤ keys.count k := hcount
      _ = (keys.filter (fun k => 2 ≤ keys.count k)).count k := by
          rw [List.count_filter]
          simpa using hcount
      _ ≤ (keys.filter (fun k => 2 ≤ keys.count k)).length :=
          List.count_le_length k _
    rw [hf] at h2
    exact h2

/-- C10: the duplicate-row rule counts with `duplicated(keep=False)`, so its
reported `duplicate_count` covers every member of every duplicated key group:
it is either 0 or at least 2, and a report of exactly one duplicate row is
impossible, for every frame and every key-column choice (including whole-row
duplication). -/
theorem check_duplicates_count_never_one (df : SourceFrame)
    (key_columns : Option (List String)) :
    check_duplicates_count df key_columns = 0 ∨
    2 ≤ check_duplicates_count df key_columns := by
  unfold check_duplicates_count
  exact dup_filter_length_never_one (duplicate_keys df key_columns)

/-- Helper: the `Match` verdict of a report row is `"OK"` exactly when the
tolerance comparison it was built from is true. -/
theorem match_verdict_iff (c : Bool) :
    ((if c = true then "OK" else "MISMATCH") = "OK") ↔ c = true := by
  cases c <;> simp

/-- C1: every row of the validation report — per-group rows, SHEET_TOTAL
rows, and the GRAND_TOTAL row alike — satisfies
`Difference = Processed_Total - Source_Total` exactly, and `Match = "OK"`
exactly when `|Difference| < 0.01`, else `Match = "MISMATCH"` (the verdict
field only ever holds one of the two strings, so the iff settles both
directions of the claim). -/
theorem validation_report_difference_and_match (input_file : String)
    (id_vars : List String) (sheets : List SheetData) (row : ValidationRow)
    (hrow : row ∈ create_validation_report input_file id_vars sheets) :
    row.difference = py_sub row.processed_total row.source_total ∧
    (row.Match = "OK" ↔ py_lt (py_abs row.difference) (1/100) = true) := by
  unfold create_validation_report at hrow
  rcases List.mem_append.mp hrow with h | h
  · rw [List.mem_flatMap] at h
    obtain ⟨sd, _, hr⟩ := h
    rcases List.mem_append.mp hr with hg | hs
    · unfold validation_group_rows at hg
      split at hg
      · cases hg
      · rw [List.mem_map] at hg
        obtain ⟨r, _, hrow_eq⟩ := hg
        subst hrow_eq
        exact ⟨rfl, match_verdict_iff _⟩
    · rcases List.mem_singleton.mp hs with rfl
      exact ⟨rfl, match_verdict_iff _⟩
  · rcases List.mem_singleton.mp h with rfl
    exact ⟨rfl, match_verdict_iff _⟩

/-- C1 witness: the grand-total row of the report over an empty sheet set
satisfies the difference equation and the tolerance verdict. -/
theorem validation_report_difference_and_match_witness :
    (validation_grand_total_row "f.xlsx" []).difference
      = py_sub (validation_grand_total_row "f.xlsx" []).processed_total
          (validation_grand_total_row "f.xlsx" []).source_total ∧
    ((validation_grand_total_row "f.xlsx" []).Match = "OK" ↔
      py_lt (py_abs (validation_grand_total_row "f.xlsx" []).difference) (1/100) = true) :=
  validation_report_difference_and_match "f.xlsx" [] [] _
    (by simp [create_validation_report])

/-- Helper for C2: appending the grand-total row built from `rows` leaves it
last, and its totals are the sums over the SHEET_TOTAL rows of the whole
report (the appended grand-total row itself is not a SHEET_TOTAL row). -/
theorem grand_total_row_concat_spec (input_file : String) (rows : List ValidationRow) :
    (rows ++ [validation_grand_total_row input_file rows]).getLast?
      = some (validation_grand_total_row input_file rows) ∧
    (validation_grand_total_row input_file rows).source_total
      = py_sum (((rows ++ [validation_grand_total_row input_file rows]).filter
          (fun r => r.category == some "SHEET_TOTAL")).map (fun r => r.source_total)) ∧
    (validation_grand_total_row input_file rows).processed_total
      = py_sum (((rows ++ [validation_grand_total_row input_file rows]).filter
          (fun r => r.category == some "SHEET_TOTAL")).map (fun r => r.processed_total)) := by
  have hcat : ((validation_grand_total_row input_file rows).category ==
      some "SHEET_TOTAL") = false := rfl
  refine ⟨?_, ?_, ?_⟩
  · exact List.getLast?_concat _
  · rw [List.filter_append]
    simp only [List.filter_cons, hcat, List.filter_nil, Bool.false_eq_true, if_false,
      List.append_nil]
    rfl
  · rw [List.filter_append]
    simp only [List.filter_cons, hcat, List.filter_nil, Bool.false_eq_true, if_false,
      List.append_nil]
    rfl

/-- C2: for every input set of sheets, the report ends with a GRAND_TOTAL row
whose `Source_Total` is the exact sum of the `Source_Total` fields of the
previously emitted SHEET_TOTAL rows and whose `Processed_Total` is likewise
the sum of their `Processed_Total` fields; the grand totals are taken from
the accumulated rows, not recomputed from the raw frames. -/
theorem grand_total_is_sum_of_sheet_totals (input_file : String)
    (id_vars : List String) (sheets : List SheetData) :
    ∃ g : ValidationRow,
      (create_validation_report input_file id_vars sheets).getLast? = some g ∧
      g.category = some "GRAND_TOTAL" ∧
      g.source_total = py_sum (((create_validation_report input_file id_vars sheets).filter
          (fun r => r.category == some "SHEET_TOTAL")).map (fun r => r.source_total)) ∧
      g.processed_total = py_sum (((create_validation_report input_file id_vars sheets).filter
          (fun r => r.category == some "SHEET_TOTAL")).map (fun r => r.processed_total)) := by
  obtain ⟨h1, h2, h3⟩ := grand_total_row_concat_spec input_file
    (sheets.flatMap (fun sd => validation_group_rows input_file id_vars sd ++
      [validation_sheet_total_row input_file sd]))
  exact ⟨validation_grand_total_row input_file
    (sheets.flatMap (fun sd => validation_group_rows input_file id_vars sd ++
      [validation_sheet_total_row input_file sd])), h1, rfl, h2, h3⟩

/-- Helper: one loop step on a rule that returns normally. -/
theorem run_rules_cons_ok {Ctx : Type} (stop_on_error : Bool)
    (rule : ValidationRule Ctx) (rest : List (ValidationRule Ctx)) (ctx : Ctx)
    (result : ValidationResult) (hv : rule.validate ctx = Except.ok result) :
    run_rules stop_on_error (rule :: rest) ctx =
      if failing_error result && stop_on_error then [result]
      else result :: run_rules stop_on_error rest ctx := by
  conv_lhs => unfold run_rules
  rw [hv]
  rfl

/-- Helper: one loop step on a rule that raises. -/
theorem run_rules_cons_error {Ctx : Type} (stop_on_error : Bool)
    (rule : ValidationRule Ctx) (rest : List (ValidationRule Ctx)) (ctx : Ctx)
    (e : String) (hv : rule.validate ctx = Except.error e) :
    run_rules stop_on_error (rule :: rest) ctx =
      if stop_on_error then [outcome_of rule ctx]
      else outcome_of rule ctx :: run_rules stop_on_error rest ctx := by
  conv_lhs => unfold run_rules
  unfold outcome_of
  rw [hv]

/-- Helper: with `stop_on_error` off, the loop never breaks: every configured
rule contributes its outcome, in order. -/
theorem run_rules_false_eq_map {Ctx : Type} (rules : List (ValidationRule Ctx))
    (ctx : Ctx) :
    run_rules false rules ctx = rules.map (fun p => outcome_of p ctx) := by
  induction rules with
  | nil => rfl
  | cons rule rest ih =>
    cases hv : rule.validate ctx with
    | ok result =>
      rw [run_rules_cons_ok false rule rest ctx result hv]
      simp only [Bool.and_false, Bool.false_eq_true, if_false, List.map_cons]
      rw [ih]
      have : outcome_of rule ctx = result := by simp [outcome_of, hv]
      rw [this]
    | error e =>
      rw [run_rules_cons_error false rule rest ctx e hv]
      simp only [Bool.false_eq_true, if_false, List.map_cons]
      rw [ih]

/-- Helper: the synthesized outcome of a raising rule is a failing error. -/
theorem failing_error_outcome_of_raise {Ctx : Type} {rule : ValidationRule Ctx}
    {ctx : Ctx} {e : String} (hv : rule.validate ctx = Except.error e) :
    failing_error (outcome_of rule ctx) = true := by
  simp [outcome_of, failing_error, hv]

/-- C3: in the rule loop, when a rule yields a failing result of severity
`error` and `stop_on_error` is true, the returned list is the outcomes of the
rules before it followed by that result, and no later rule contributes (the
loop breaks, so the remaining rules are never evaluated); with
`stop_on_error` false every configured rule is evaluated, in order. For rules
`[A(error,fail), B(warning,fail)]` this gives result length 1 (A's result)
with stop_on_error and length 2 without. -/
theorem run_rules_stop_on_error_truncates {Ctx : Type} (ctx : Ctx)
    (pre : List (ValidationRule Ctx)) (a : ValidationRule Ctx)
    (post : List (ValidationRule Ctx))
    (hpre : ∀ p ∈ pre, failing_error (outcome_of p ctx) = false)
    (ha : failing_error (outcome_of a ctx) = true) :
    run_rules true (pre ++ a :: post) ctx
      = pre.map (fun p => outcome_of p ctx) ++ [outcome_of a ctx] ∧
    run_rules false (pre ++ a :: post) ctx
      = (pre ++ a :: post).map (fun p => outcome_of p ctx) := by
  refine ⟨?_, run_rules_false_eq_map _ _⟩
  induction pre with
  | nil =>
    simp only [List.nil_append, List.map_nil]
    cases hv : a.validate ctx with
    | ok result =>
      rw [run_rules_cons_ok true a post ctx result hv]
      have hout : outcome_of a ctx = result := by simp [outcome_of, hv]
      rw [hout] at ha
      rw [ha]
      simp
      rw [← hout]
    | error e =>
      rw [run_rules_cons_error true a post ctx e hv]
      simp
  | cons p rest ih =>
    have hp : failing_error (outcome_of p ctx) = false :=
      hpre p (List.mem_cons_self p rest)
    have hrest : ∀ q ∈ rest, failing_error (outcome_of q ctx) = false :=
      fun q hq => hpre q (List.mem_cons_of_mem p hq)
    simp only [List.cons_append, List.map_cons]
    cases hv : p.validate ctx with
    | ok result =>
      rw [run_rules_cons_ok true p (rest ++ a :: post) ctx result hv]
      have hout : outcome_of p ctx = result := by simp [outcome_of, hv]
      rw [hout] at hp
      rw [hp]
      simp only [Bool.false_and, Bool.false_eq_true, if_false]
      rw [ih hrest, hout]
    | error e =>
      exfalso
      have := failing_error_outcome_of_raise hv
      rw [hp] at this
      exact Bool.noConfusion this

/-- The failing `error` result rule A of the stop-on-error scenario returns. -/
def result_a_ex : ValidationResult :=
  { rule_name := "A", severity := "error", passed := false, message := "A failed",
    details := [] }

/-- The failing `warning` result rule B of the stop-on-error scenario returns. -/
def result_b_ex : ValidationResult :=
  { rule_name := "B", severity := "warning", passed := false, message := "B failed",
    details := [] }

/-- An example rule for the stop-on-error scenario: returns a failing
`error`-severity result. -/
def rule_a_ex : ValidationRule Unit :=
  { className := "CheckNullValues", validate := fun _ => Except.ok result_a_ex }

/-- An example rule for the stop-on-error scenario: returns a failing
`warning`-severity result. -/
def rule_b_ex : ValidationRule Unit :=
  { className := "CheckDuplicates", validate := fun _ => Except.ok result_b_ex }

/-- C3 witness: for the concrete rules `[A(error,fail), B(warning,fail)]`
the loop returns exactly A's result with `stop_on_error=true` and both
results with `stop_on_error=false`. -/
theorem run_rules_stop_on_error_truncates_witness :
    run_rules true ([] ++ rule_a_ex :: [rule_b_ex]) ()
      = ([] : List (ValidationRule Unit)).map (fun p => outcome_of p ())
        ++ [outcome_of rule_a_ex ()] ∧
    run_rules false ([] ++ rule_a_ex :: [rule_b_ex]) ()
      = (([] : List (ValidationRule Unit)) ++ rule_a_ex :: [rule_b_ex]).map
          (fun p => outcome_of p ()) :=
  run_rules_stop_on_error_truncates () [] rule_a_ex [rule_b_ex]
    (by intro p hp; cases hp)
    (by simp [failing_error, outcome_of, rule_a_ex, result_a_ex])

/-- C4: if a rule's `validate` raises during engine evaluation (and the loop
reaches it), the engine appends in its place a synthesized result of severity
`error` with `passed = false` whose message and details carry the exception
text; the exception never propagates — `run_rules` (hence
`run_pre_processing` / `run_post_processing`) is a total function into result
lists. -/
theorem run_rules_exception_reified {Ctx : Type} (ctx : Ctx) (stop_on_error : Bool)
    (pre : List (ValidationRule Ctx)) (rule : ValidationRule Ctx)
    (post : List (ValidationRule Ctx)) (e : String)
    (hpre : ∀ p ∈ pre, failing_error (outcome_of p ctx) = false)
    (hv : rule.validate ctx = Except.error e) :
    ∃ res ∈ run_rules stop_on_error (pre ++ rule :: post) ctx,
      res.rule_name = rule.className ∧ res.severity = "error" ∧ res.passed = false ∧
      res.message = "Rule execution failed: " ++ e ∧ ("exception", e) ∈ res.details := by
  induction pre with
  | nil =>
    refine ⟨outcome_of rule ctx, ?_, by simp [outcome_of, hv], by simp [outcome_of, hv],
      by simp [outcome_of, hv], by simp [outcome_of, hv], by simp [outcome_of, hv]⟩
    rw [List.nil_append, run_rules_cons_error stop_on_error rule post ctx e hv]
    split
    · exact List.mem_singleton_self _
    · exact List.mem_cons_self _ _
  | cons p rest ih =>
    have hp : failing_error (outcome_of p ctx) = false :=
      hpre p (List.mem_cons_self p rest)
    have hrest : ∀ q ∈ rest, failing_error (outcome_of q ctx) = false :=
      fun q hq => hpre q (List.mem_cons_of_mem p hq)
    obtain ⟨res, hmem, hfields⟩ := ih hrest
    refine ⟨res, ?_, hfields⟩
    rw [List.cons_append]
    cases hpv : p.validate ctx with
    | ok result =>
      rw [run_rules_cons_ok stop_on_error p (rest ++ rule :: post) ctx result hpv]
      have hout : outcome_of p ctx = result := by simp [outcome_of, hpv]
      rw [hout] at hp
      rw [hp]
      simp only [Bool.false_and, Bool.false_eq_true, if_false]
      exact List.mem_cons_of_mem _ hmem
    | error e₂ =>
      exfalso
      have := failing_error_outcome_of_raise hpv
      rw [hp] at this
      exact Bool.noConfusion this

/-- A rule that raises, for the exception-reification scenario. -/
def rule_raise_ex : ValidationRule Unit :=
  { className := "CheckColumnTypes"
    validate := fun _ => Except.error "division by zero" }

/-- C4 witness: the raising rule's synthesized failing `error` result is in
the returned list and carries the exception text. -/
theorem run_rules_exception_reified_witness :
    ∃ res ∈ run_rules true ([] ++ rule_raise_ex :: []) (),
      res.rule_name = rule_raise_ex.className ∧ res.severity = "error" ∧
      res.passed = false ∧
      res.message = "Rule execution failed: " ++ "division by zero" ∧
      ("exception", "division by zero") ∈ res.details :=
  run_rules_exception_reified () true [] rule_raise_ex [] "division by zero"
    (by intro p hp; cases hp) (by simp [rule_raise_ex])

/-- Helper: the Boolean failing-error test in propositional form. -/
theorem failing_error_iff (r : ValidationResult) :
    failing_error r = true ↔ (r.severity = "error" ∧ r.passed = false) := by
  unfold failing_error
  cases hp : r.passed <;> simp [hp]

/-- C5: `check_for_errors` raises a `DataQualityError` if and only if the
results list holds at least one failing result of severity `error`; when it
raises, the message includes the rule name and message of every such failing
error result (as the substring `rule_name: message`), not only the first;
with no failing error result it returns normally. -/
theorem check_for_errors_spec (results : List ValidationResult) :
    ((∃ r ∈ results, r.severity = "error" ∧ r.passed = false) ↔
      ∃ m, check_for_errors results = Except.error m) ∧
    ((¬ ∃ r ∈ results, r.severity = "error" ∧ r.passed = false) →
      check_for_errors results = Except.ok ()) ∧
    (∀ m, check_for_errors results = Except.error m →
      ∀ r ∈ results, r.severity = "error" → r.passed = false →
        substringOf (r.rule_name ++ ": " ++ r.message).data m.data) := by
  have hex : (∃ r ∈ results, r.severity = "error" ∧ r.passed = false) ↔
      ¬ (results.filter failing_error).isEmpty := by
    rw [List.isEmpty_iff]
    constructor
    · rintro ⟨r, hr, hsev, hpass⟩ hnil
      have : r ∈ results.filter failing_error :=
        List.mem_filter.mpr ⟨hr, (failing_error_iff r).mpr ⟨hsev, hpass⟩⟩
      rw [hnil] at this
      cases this
    · intro hne
      obtain ⟨r, hr⟩ := List.exists_mem_of_ne_nil _ hne
      have := List.mem_filter.mp hr
      exact ⟨r, this.1, (failing_error_iff r).mp this.2⟩
  refine ⟨?_, ?_, ?_⟩
  · rw [hex]
    unfold check_for_errors
    constructor
    · intro hne
      rw [if_neg (by simpa using hne)]
      exact ⟨_, rfl⟩
    · rintro ⟨m, hm⟩
      intro hempty
      rw [if_pos hempty] at hm
      cases hm
  · intro hnone
    have : (results.filter failing_error).isEmpty := by
      by_contra hne
      exact hnone (hex.mpr hne)
    unfold check_for_errors
    rw [if_pos this]
  · intro m hm r hr hsev hpass
    have hrf : r ∈ results.filter failing_error :=
      List.mem_filter.mpr ⟨hr, (failing_error_iff r).mpr ⟨hsev, hpass⟩⟩
    simp only [check_for_errors] at hm
    split at hm
    · cases hm
    · have hmsg : m = "Data quality validation failed with "
          ++ toString (results.filter failing_error).length ++ " error(s):\n"
          ++ py_join "\n" (((results.filter failing_error).map
            (fun r => r.rule_name ++ ": " ++ r.message)).map (fun msg => "  - " ++ msg)) := by
        injection hm with h
        exact h.symm
      have hjoin : substringOf ("  - " ++ (r.rule_name ++ ": " ++ r.message)).data
          (py_join "\n" (((results.filter failing_error).map
            (fun r => r.rule_name ++ ": " ++ r.message)).map (fun msg => "  - " ++ msg))).data := by
        apply substringOf_py_join
        exact List.mem_map_of_mem _ (List.mem_map_of_mem _ hrf)
      have hdrop : substringOf (r.rule_name ++ ": " ++ r.message).data
          ("  - " ++ (r.rule_name ++ ": " ++ r.message)).data :=
        ⟨"  - ".data, [], by simp [String.data_append]⟩
      rw [hmsg]
      have := substringOf_trans hdrop hjoin
      simpa [String.data_append, List.append_assoc] using
        substringOf_append_left (("Data quality validation failed with "
          ++ toString (results.filter failing_error).length ++ " error(s):\n").data) this

/-- C8: for a frame with rows and a checked column present in the frame, the
null-ratio rule records that column as an issue if and only if
`null_count/n` strictly exceeds the threshold; boundary equality passes. -/
theorem check_null_values_flags_iff (df : SourceFrame) (columns : List String)
    (threshold : ℚ) (c : String)
    (hn : 0 < df.rows.length) (hc : c ∈ columns) (hcol : c ∈ df.columns) :
    ((∃ i ∈ check_null_values_issues df (ColumnsParam.cols columns) threshold,
        i.column = c) ↔
      (null_count_of df c : ℚ) / (df.rows.length : ℚ) > threshold) ∧
    ((null_count_of df c : ℚ) / (df.rows.length : ℚ) = threshold →
      ¬ ∃ i ∈ check_null_values_issues df (ColumnsParam.cols columns) threshold,
        i.column = c) := by
  have hiff : (∃ i ∈ check_null_values_issues df (ColumnsParam.cols columns) threshold,
      i.column = c) ↔
      (null_count_of df c : ℚ) / (df.rows.length : ℚ) > threshold := by
    constructor
    · rintro ⟨i, hi, hic⟩
      simp only [check_null_values_issues, List.mem_filterMap] at hi
      obtain ⟨a, ha, hfa⟩ := hi
      split at hfa
      · split at hfa
        · rename_i hgt
          injection hfa with hrec
          have hac : a = c := by rw [← hic, ← hrec]
          rw [hac] at hgt
          exact hgt
        · cases hfa
      · rename_i hlen
        exact absurd hn hlen
    · intro hgt
      refine ⟨{ column := c, null_count := null_count_of df c,
                null_ratio := if df.rows.length > 0
                  then (null_count_of df c : ℚ) / (df.rows.length : ℚ) else 0,
                threshold := threshold }, ?_, rfl⟩
      simp only [check_null_values_issues, List.mem_filterMap]
      refine ⟨c, ?_, ?_⟩
      · exact List.mem_filter.mpr ⟨hc, by simpa using hcol⟩
      · rw [if_pos (by rw [if_pos hn]; exact hgt)]
  refine ⟨hiff, ?_⟩
  intro heq hex
  have := hiff.mp hex
  rw [heq] at this
  exact lt_irrefl threshold this

/-- C8 witness frame: one row whose only column holds a missing value. -/
def null_frame_ex : SourceFrame :=
  { columns := ["a"], rows := [[("a", Cell.null)]] }

/-- C8 witness: with one all-null column out of one row and threshold 0, the
issue is recorded exactly when `1/1 > 0`, and equality at the boundary would
pass. -/
theorem check_null_values_flags_iff_witness :
    ((∃ i ∈ check_null_values_issues null_frame_ex (ColumnsParam.cols ["a"]) 0,
        i.column = "a") ↔
      (null_count_of null_frame_ex "a" : ℚ) / (null_frame_ex.rows.length : ℚ) > 0) ∧
    ((null_count_of null_frame_ex "a" : ℚ) / (null_frame_ex.rows.length : ℚ) = 0 →
      ¬ ∃ i ∈ check_null_values_issues null_frame_ex (ColumnsParam.cols ["a"]) 0,
        i.column = "a") :=
  check_null_values_flags_iff null_frame_ex ["a"] 0 "a" (by decide) (by decide) (by decide)

/-- C9: whenever any expected column is absent from the observed non-empty
header cells of the configured row, the Phase 2 header check raises a
TemplateError — for every configuration, hence regardless of the configured
severity — and the error message lists the missing columns, the expected
columns, and the found columns. -/
theorem check_header_row_missing_always_raises (cells : List (Option String))
    (sheet_name : String) (check : HeaderCheck)
    (h : header_missing cells check ≠ []) :
    ∃ m, check_header_row cells sheet_name check = Except.error m ∧
      substringOf (py_join ", " (header_missing cells check)).data m.data ∧
      substringOf (py_join ", " check.expected_columns).data m.data ∧
      substringOf (py_join ", " (header_actual cells)).data m.data := by
  have hne : (header_missing cells check).isEmpty = false := by
    cases he : (header_missing cells check).isEmpty
    · rfl
    · exact absurd (List.isEmpty_iff.mp he) h
  refine ⟨String.replace check.message "{sheet}" sheet_name
      ++ "\n  Missing columns: " ++ py_join ", " (header_missing cells check)
      ++ "\n  Expected: " ++ py_join ", " check.expected_columns
      ++ "\n  Found at row " ++ toString check.row_number ++ ": "
      ++ py_join ", " (header_actual cells), ?_, ?_, ?_, ?_⟩
  · simp only [check_header_row, hne, Bool.not_false, if_true]
  · exact ⟨(String.replace check.message "{sheet}" sheet_name
        ++ "\n  Missing columns: ").data,
      ("\n  Expected: " ++ py_join ", " check.expected_columns
        ++ "\n  Found at row " ++ toString check.row_number ++ ": "
        ++ py_join ", " (header_actual cells)).data,
      by simp [String.data_append]⟩
  · exact ⟨(String.replace check.message "{sheet}" sheet_name
        ++ "\n  Missing columns: " ++ py_join ", " (header_missing cells check)
        ++ "\n  Expected: ").data,
      ("\n  Found at row " ++ toString check.row_number ++ ": "
        ++ py_join ", " (header_actual cells)).data,
      by simp [String.data_append]⟩
  · exact ⟨(String.replace check.message "{sheet}" sheet_name
        ++ "\n  Missing columns: " ++ py_join ", " (header_missing cells check)
        ++ "\n  Expected: " ++ py_join ", " check.expected_columns
        ++ "\n  Found at row " ++ toString check.row_number ++ ": ").data,
      ([] : List Char),
      by simp [String.data_append]⟩

/-- C9 witness header check: expects `Site` and `Category`, warning severity,
the default message template. -/
def header_check_ex : HeaderCheck :=
  { row_number := 1, expected_columns := ["Site", "Category"], exact_order := false,
    allow_extra_columns := true, severity := "warning",
    message := "Header row mismatch in sheet '{sheet}'" }

/-- C9 witness header row: the observed columns are `Location` and `Type`. -/
def header_cells_ex : List (Option String) := [some "Location", some "Type"]

/-- C9 witness: the `["Location","Type"]` vs `["Site","Category"]` scenario
raises even at warning severity, and the message carries the missing,
expected and found column lists. -/
theorem check_header_row_missing_always_raises_witness :
    ∃ m, check_header_row header_cells_ex "Sheet1" header_check_ex = Except.error m ∧
      substringOf (py_join ", " (header_missing header_cells_ex header_check_ex)).data m.data ∧
      substringOf (py_join ", " header_check_ex.expected_columns).data m.data ∧
      substringOf (py_join ", " (header_actual header_cells_ex)).data m.data :=
  check_header_row_missing_always_raises header_cells_ex "Sheet1" header_check_ex
    (by decide)
